import Mathlib

/-
Verification development for the windy-station client library.

The library (src/src/lib.rs) models two request payloads, serializes them
with serde to JSON, and issues one HTTP POST per call against
base_url/api_key, treating a 4xx or 5xx status (reqwest error_for_status)
as failure.  We embed the data model and the serialization pipeline
shallowly: JSON documents are trees, serde serializers are Except-valued
functions mirroring the Result-valued serde API, and the network is an
oracle mapping a request to an outcome.
-/

namespace WindyStationLib

/-- A JSON document, as produced by serde_json.  Object fields keep their
order, mirroring the byte-level output of the serializer. -/
inductive Json where
  | null : Json
  | bool (b : Bool) : Json
  | num (q : Rat) : Json
  | str (s : String) : Json
  | arr (elems : List Json) : Json
  | obj (fields : List (String × Json)) : Json

/-- The Rust f32 type: a finite value (an exact dyadic rational in the
model) or one of the non-finite values. -/
inductive F32 where
  | finite (val : Rat) : F32
  | nan : F32
  | inf : F32
  | neginf : F32
deriving DecidableEq

/-- Floor of the base-2 logarithm of a natural number, with explicit fuel
so that the kernel can evaluate it. -/
def natLog2F : Nat → Nat → Nat
  | 0, _ => 0
  | fuel + 1, n => if 2 ≤ n then natLog2F fuel (n / 2) + 1 else 0

/-- Floor of the base-2 logarithm of a natural number. -/
def natLog2 (n : Nat) : Nat := natLog2F n n

/-- Floor of a positive rational, as a natural number. -/
def ratFloorPos (x : Rat) : Nat := x.num.toNat / x.den

/-- The integer e with 2 ^ e ≤ a < 2 ^ (e + 1), for positive a. -/
def ratFloorLog2 (a : Rat) : Int :=
  if 1 ≤ a then (natLog2 (ratFloorPos a) : Int)
  else
    let f := natLog2 (ratFloorPos a⁻¹)
    if a * (2 : Rat) ^ f = 1 then -(f : Int) else -(f : Int) - 1

/-- Round a positive rational to the nearest integer, ties to even. -/
def roundHalfEvenPos (x : Rat) : Nat :=
  let n := ratFloorPos x
  let frac := x - (n : Rat)
  if frac < 1 / 2 then n
  else if 1 / 2 < frac then n + 1
  else if n % 2 = 0 then n else n + 1

/-- IEEE-754 round-to-nearest-even conversion of an exact rational to the
binary32 format, used to embed Rust f32 literals faithfully. -/
def f32round (q : Rat) : F32 :=
  if q = 0 then .finite 0
  else
    let a := if 0 < q then q else -q
    let e := ratFloorLog2 a
    let k : Int := max (e - 23) (-149)
    let scaled : Rat := if 0 ≤ k then a / (2 : Rat) ^ k.toNat else a * (2 : Rat) ^ (-k).toNat
    let n := roundHalfEvenPos scaled
    let mag : Rat := if 0 ≤ k then (n : Rat) * (2 : Rat) ^ k.toNat else (n : Rat) / (2 : Rat) ^ (-k).toNat
    if (2 : Rat) ^ 128 ≤ mag then (if 0 < q then .inf else .neginf)
    else .finite (if 0 < q then mag else -mag)

/-- The opaque reqwest HTTP client handle held by the API struct.  The
library only stores it and hands it requests, so it carries no data in
the model. -/
inductive HttpClient where
  | new : HttpClient
deriving DecidableEq

/-- Data sharing policy (enum StationVisibility in the source). -/
inductive StationVisibility where
  | Open : StationVisibility
  | OnlyWindy : StationVisibility
  | Private : StationVisibility
deriving DecidableEq

/-- A station registration record (struct Station).  u32 fields are
modelled as Nat (the library performs no arithmetic on them) and f32
fields as the F32 model type. -/
structure Station where
  id : Nat
  visibility : StationVisibility
  name : String
  latitude : F32
  longitude : F32
  elevation : Nat
  temp_height : Nat
  wind_height : Nat

/-- Modelled from the spec: a chrono DateTime of Utc value, which the
chrono serde support serializes as an ISO-8601 timestamp string with UTC
offset.  The library never inspects it, so the model keeps only the
rendered string. -/
structure DateTimeUtc where
  rfc3339 : String
deriving DecidableEq

/-- An observation record (struct Observation).  Every field is optional;
the Rust Default derive leaves all of them unset. -/
structure Observation where
  station_id : Option Nat := none
  time : Option DateTimeUtc := none
  temperature : Option F32 := none
  wind_speed : Option F32 := none
  wind_direction : Option Nat := none
  wind_gust : Option F32 := none
  relative_humidity : Option F32 := none
  dew_point : Option F32 := none
  pressure : Option F32 := none
  precipitation : Option F32 := none
  uv_index : Option Nat := none

/-- The observation produced by the Rust Default derive: all fields unset. -/
def Observation.defaultValue : Observation := {}

/-- The JSON value a finite f32 serializes to; serde_json writes null for
the non-finite values. -/
def F32.toJson : F32 → Json
  | .finite q => .num q
  | .nan => .null
  | .inf => .null
  | .neginf => .null

/-- serde_json serialization of an unsigned integer field. -/
def serializeNat (n : Nat) : Except String Json := .ok (.num (n : Rat))

/-- serde_json serialization of an f32 field. -/
def serializeF32 (x : F32) : Except String Json := .ok x.toJson

/-- serde_json serialization of a string field. -/
def serializeString (s : String) : Except String Json := .ok (.str s)

/-- serde serialization of the timestamp (chrono serde support). -/
def serializeDateTime (t : DateTimeUtc) : Except String Json := .ok (.str t.rfc3339)

/-- serde serialization of StationVisibility: a unit enum variant becomes
a JSON string, using the serde rename "Only Windy" on the middle variant. -/
def StationVisibility.serialize : StationVisibility → Except String Json
  | .Open => .ok (.str "Open")
  | .OnlyWindy => .ok (.str "Only Windy")
  | .Private => .ok (.str "Private")

/-- serde deserialization of StationVisibility from a JSON value: a unit
enum variant is recognised from its (renamed) string token. -/
def StationVisibility.deserialize : Json → Except String StationVisibility
  | .str s =>
      if s = "Open" then .ok .Open
      else if s = "Only Windy" then .ok .OnlyWindy
      else if s = "Private" then .ok .Private
      else .error "unknown variant"
  | _ => .error "invalid type: expected string"

/-- serde serialization of struct Station: fields in declaration order,
with the serde renames station, tempheight and windheight. -/
def Station.serialize (s : Station) : Except String Json := do
  let idJ ← serializeNat s.id
  let visJ ← s.visibility.serialize
  let nameJ ← serializeString s.name
  let latJ ← serializeF32 s.latitude
  let lonJ ← serializeF32 s.longitude
  let elevJ ← serializeNat s.elevation
  let tempHJ ← serializeNat s.temp_height
  let windHJ ← serializeNat s.wind_height
  .ok (.obj [("station", idJ), ("visibility", visJ), ("name", nameJ),
    ("latitude", latJ), ("longitude", lonJ), ("elevation", elevJ),
    ("tempheight", tempHJ), ("windheight", windHJ)])

/-- An optional struct field under skip_serializing_if Option.is_none:
absent options contribute no field at all. -/
def serializeOptField (name : String) (ser : α → Except String Json) :
    Option α → Except String (List (String × Json))
  | none => .ok []
  | some v => do
      let j ← ser v
      .ok [(name, j)]

/-- serde serialization of struct Observation: optional fields in
declaration order, each governed by skip_serializing_if Option.is_none
and the serde renames of the source. -/
def Observation.serialize (o : Observation) : Except String Json := do
  let f1 ← serializeOptField "station" serializeNat o.station_id
  let f2 ← serializeOptField "time" serializeDateTime o.time
  let f3 ← serializeOptField "temp" serializeF32 o.temperature
  let f4 ← serializeOptField "wind" serializeF32 o.wind_speed
  let f5 ← serializeOptField "winddir" serializeNat o.wind_direction
  let f6 ← serializeOptField "gust" serializeF32 o.wind_gust
  let f7 ← serializeOptField "rh" serializeF32 o.relative_humidity
  let f8 ← serializeOptField "dewpoint" serializeF32 o.dew_point
  let f9 ← serializeOptField "pressure" serializeF32 o.pressure
  let f10 ← serializeOptField "precip" serializeF32 o.precipitation
  let f11 ← serializeOptField "uv" serializeNat o.uv_index
  .ok (.obj (f1 ++ f2 ++ f3 ++ f4 ++ f5 ++ f6 ++ f7 ++ f8 ++ f9 ++ f10 ++ f11))

/-- serde serialization of a slice: each element in order. -/
def serializeList (ser : α → Except String Json) : List α → Except String (List Json)
  | [] => .ok []
  | x :: xs => do
      let j ← ser x
      let js ← serializeList ser xs
      .ok (j :: js)

/-- The request payload of register_stations: a struct with the single
field stations, serialized by serde derive. -/
structure RegisterStationsRequest where
  stations : List Station

/-- serde serialization of RegisterStationsRequest: one object with the
single key stations holding the array of station objects. -/
def RegisterStationsRequest.serialize (r : RegisterStationsRequest) : Except String Json := do
  let elems ← serializeList Station.serialize r.stations
  .ok (.obj [("stations", .arr elems)])

/-- The request payload of record_observations: a struct with the single
field observations, serialized by serde derive. -/
structure RecordObservationsRequest where
  observations : List Observation

/-- serde serialization of RecordObservationsRequest: one object with the
single key observations holding the array of observation objects. -/
def RecordObservationsRequest.serialize (r : RecordObservationsRequest) : Except String Json := do
  let elems ← serializeList Observation.serialize r.observations
  .ok (.obj [("observations", .arr elems)])

/-- The client struct WindyStation: API key, HTTP client handle and base
url, exactly the three fields of the source. -/
structure WindyStation where
  api_key : String
  client : HttpClient
  base_url : String

/-- Constructor with_client: stores the key and client and the fixed
default base url. -/
def WindyStation.with_client (api_key : String) (client : HttpClient) : WindyStation :=
  { api_key := api_key, client := client,
    base_url := "https://stations.windy.com/pws/update" }

/-- Constructor new: with_client on a fresh default client. -/
def WindyStation.new (api_key : String) : WindyStation :=
  WindyStation.with_client api_key HttpClient.new

/-- The POST target built by post_request_builder: the format string
base_url slash api_key, plain concatenation with no escaping. -/
def WindyStation.postUrl (w : WindyStation) : String :=
  w.base_url ++ "/" ++ w.api_key

/-- An outbound HTTP request as assembled by the request builder: method,
target url and the JSON body attached by the json builder call. -/
structure Request where
  method : String
  url : String
  body : Json

/-- What the network returns for one sent request: either a transport
level failure or a response carrying a status code. -/
inductive HttpOutcome where
  | transportFailure (msg : String) : HttpOutcome
  | response (status : Nat) : HttpOutcome

/-- reqwest StatusCode.is_client_error: 400 to 499. -/
def isClientError (status : Nat) : Bool := 400 ≤ status && status < 500

/-- reqwest StatusCode.is_server_error: 500 to 599. -/
def isServerError (status : Nat) : Bool := 500 ≤ status && status < 600

/-- reqwest Response.error_for_status, as used after send: an error for a
client or server error status, Ok for every other received status. -/
def errorForStatus (status : Nat) : Bool := isClientError status || isServerError status

/-- The tail of both operations: send the request, propagate transport
failures, then error_for_status mapped to unit. -/
def completeSend : HttpOutcome → Except String Unit
  | .transportFailure m => .error m
  | .response s => if errorForStatus s then .error "status error" else .ok ()

/-- Operation register_stations: build the payload, serialize it, POST it
to postUrl through the network oracle, and map the outcome. -/
def WindyStation.registerStations (w : WindyStation) (stations : List Station)
    (http : Request → HttpOutcome) : Except String Unit := do
  let body ← (RegisterStationsRequest.mk stations).serialize
  completeSend (http { method := "POST", url := w.postUrl, body := body })

/-- Operation record_observations: identical pipeline with the
observations payload. -/
def WindyStation.recordObservations (w : WindyStation) (observations : List Observation)
    (http : Request → HttpOutcome) : Except String Unit := do
  let body ← (RecordObservationsRequest.mk observations).serialize
  completeSend (http { method := "POST", url := w.postUrl, body := body })

/-- The value Station.serialize computes (proved below); fields in
declaration order under their wire names. -/
def Station.toJson (s : Station) : Json :=
  .obj [("station", .num (s.id : Rat)), ("visibility",
      match s.visibility with
      | .Open => .str "Open"
      | .OnlyWindy => .str "Only Windy"
      | .Private => .str "Private"),
    ("name", .str s.name), ("latitude", s.latitude.toJson),
    ("longitude", s.longitude.toJson), ("elevation", .num (s.elevation : Rat)),
    ("tempheight", .num (s.temp_height : Rat)), ("windheight", .num (s.wind_height : Rat))]

/-- The field list contributed by one optional field: nothing when unset. -/
def optField (name : String) (f : α → Json) : Option α → List (String × Json)
  | none => []
  | some v => [(name, f v)]

/-- The JSON number an unsigned integer serializes to. -/
def natJson (n : Nat) : Json := .num (n : Rat)

/-- The JSON string a timestamp serializes to. -/
def timeJson (t : DateTimeUtc) : Json := .str t.rfc3339

/-- The value Observation.serialize computes (proved below). -/
def Observation.toJson (o : Observation) : Json :=
  .obj (optField "station" natJson o.station_id ++
    optField "time" timeJson o.time ++
    optField "temp" F32.toJson o.temperature ++
    optField "wind" F32.toJson o.wind_speed ++
    optField "winddir" natJson o.wind_direction ++
    optField "gust" F32.toJson o.wind_gust ++
    optField "rh" F32.toJson o.relative_humidity ++
    optField "dewpoint" F32.toJson o.dew_point ++
    optField "pressure" F32.toJson o.pressure ++
    optField "precip" F32.toJson o.precipitation ++
    optField "uv" natJson o.uv_index)

/-- The keys of a JSON object, in emission order. -/
def Json.objKeys : Json → List String
  | .obj fields => fields.map Prod.fst
  | _ => []

/-- The request register_stations sends (proved below): POST, the shared
postUrl target, and the serialized stations payload. -/
def WindyStation.registerRequest (w : WindyStation) (stations : List Station) : Request :=
  { method := "POST", url := w.postUrl,
    body := .obj [("stations", .arr (stations.map Station.toJson))] }

/-- The request record_observations sends (proved below). -/
def WindyStation.recordRequest (w : WindyStation) (observations : List Observation) : Request :=
  { method := "POST", url := w.postUrl,
    body := .obj [("observations", .arr (observations.map Observation.toJson))] }

/-- True exactly on the call results the operations report as success. -/
def callSucceeded : Except String Unit → Bool
  | .ok _ => true
  | .error _ => false

/-- The network outcomes the code accepts: a received response whose
status is not a 4xx or 5xx error status. -/
def outcomeAccepted : HttpOutcome → Bool
  | .transportFailure _ => false
  | .response s => !(errorForStatus s)

/-- The station of the register_stations test fixture, with the f32
literals rounded to binary32 as Rust does. -/
def testStation : Station :=
  { id := 0, visibility := .Open, name := "test-station",
    latitude := f32round (49.282730 : Rat),
    longitude := f32round (-(123.120735 : Rat)),
    elevation := 62, temp_height := 1, wind_height := 2 }

theorem station_serialize_eq_toJson (s : Station) : Station.serialize s = .ok s.toJson := by
  obtain ⟨i, v, n, la, lo, e, t, w⟩ := s
  cases v <;> rfl

theorem observation_serialize_eq_toJson (o : Observation) :
    Observation.serialize o = .ok o.toJson := by
  obtain ⟨f1, f2, f3, f4, f5, f6, f7, f8, f9, f10, f11⟩ := o
  cases f1 <;> cases f2 <;> cases f3 <;> cases f4 <;> cases f5 <;> cases f6 <;>
    cases f7 <;> cases f8 <;> cases f9 <;> cases f10 <;> cases f11 <;> rfl

theorem serializeList_eq_map {α : Type} (ser : α → Except String Json) (f : α → Json)
    (h : ∀ a, ser a = .ok (f a)) : ∀ l : List α, serializeList ser l = .ok (l.map f) := by
  intro l
  induction l with
  | nil => rfl
  | cons x xs ih =>
      simp only [serializeList, h, ih]
      rfl

theorem registerPayload_eq (stations : List Station) :
    (RegisterStationsRequest.mk stations).serialize =
      .ok (.obj [("stations", .arr (stations.map Station.toJson))]) := by
  simp only [RegisterStationsRequest.serialize,
    serializeList_eq_map Station.serialize Station.toJson station_serialize_eq_toJson]
  rfl

theorem recordPayload_eq (observations : List Observation) :
    (RecordObservationsRequest.mk observations).serialize =
      .ok (.obj [("observations", .arr (observations.map Observation.toJson))]) := by
  simp only [RecordObservationsRequest.serialize,
    serializeList_eq_map Observation.serialize Observation.toJson observation_serialize_eq_toJson]
  rfl

theorem registerStations_run (w : WindyStation) (stations : List Station)
    (http : Request → HttpOutcome) :
    w.registerStations stations http = completeSend (http (w.registerRequest stations)) := by
  simp only [WindyStation.registerStations, registerPayload_eq]
  rfl

theorem recordObservations_run (w : WindyStation) (observations : List Observation)
    (http : Request → HttpOutcome) :
    w.recordObservations observations http = completeSend (http (w.recordRequest observations)) := by
  simp only [WindyStation.recordObservations, recordPayload_eq]
  rfl

theorem callSucceeded_completeSend (o : HttpOutcome) :
    callSucceeded (completeSend o) = outcomeAccepted o := by
  cases o with
  | transportFailure m => rfl
  | response s =>
      simp only [completeSend, outcomeAccepted]
      split <;> simp_all [callSucceeded]

theorem map_fst_optField {α : Type} (name : String) (f : α → Json) (o : Option α) :
    (optField name f o).map Prod.fst = if o.isSome then [name] else [] := by
  cases o <;> simp [optField]

theorem mem_map_fst_optField {α : Type} (s name : String) (f : α → Json) (o : Option α) :
    s ∈ (optField name f o).map Prod.fst ↔ o.isSome = true ∧ s = name := by
  cases o <;> simp [optField]

theorem mem_singleton_ite (s name : String) (c : Bool) :
    (s ∈ if c = true then [name] else []) ↔ (c = true ∧ s = name) := by
  cases c <;> simp

theorem observation_objKeys (o : Observation) :
    o.toJson.objKeys =
      (if o.station_id.isSome then ["station"] else []) ++
        (if o.time.isSome then ["time"] else []) ++
        (if o.temperature.isSome then ["temp"] else []) ++
        (if o.wind_speed.isSome then ["wind"] else []) ++
        (if o.wind_direction.isSome then ["winddir"] else []) ++
        (if o.wind_gust.isSome then ["gust"] else []) ++
        (if o.relative_humidity.isSome then ["rh"] else []) ++
        (if o.dew_point.isSome then ["dewpoint"] else []) ++
        (if o.pressure.isSome then ["pressure"] else []) ++
        (if o.precipitation.isSome then ["precip"] else []) ++
        (if o.uv_index.isSome then ["uv"] else []) := by
  simp only [Observation.toJson, Json.objKeys, List.map_append, map_fst_optField]

/-- C1: for every Observation, an optional field left unset produces no
key at all in the serialized object: a wire name occurs among the keys
exactly when the corresponding field is set, and the serde serializer
produces exactly that object. -/
theorem claim_C1_unset_fields_absent (o : Observation) :
    Observation.serialize o = .ok o.toJson ∧
    (("station" ∈ o.toJson.objKeys ↔ o.station_id.isSome = true) ∧
     ("time" ∈ o.toJson.objKeys ↔ o.time.isSome = true) ∧
     ("temp" ∈ o.toJson.objKeys ↔ o.temperature.isSome = true) ∧
     ("wind" ∈ o.toJson.objKeys ↔ o.wind_speed.isSome = true) ∧
     ("winddir" ∈ o.toJson.objKeys ↔ o.wind_direction.isSome = true) ∧
     ("gust" ∈ o.toJson.objKeys ↔ o.wind_gust.isSome = true) ∧
     ("rh" ∈ o.toJson.objKeys ↔ o.relative_humidity.isSome = true) ∧
     ("dewpoint" ∈ o.toJson.objKeys ↔ o.dew_point.isSome = true) ∧
     ("pressure" ∈ o.toJson.objKeys ↔ o.pressure.isSome = true) ∧
     ("precip" ∈ o.toJson.objKeys ↔ o.precipitation.isSome = true) ∧
     ("uv" ∈ o.toJson.objKeys ↔ o.uv_index.isSome = true)) := by
  refine ⟨observation_serialize_eq_toJson o, ?_⟩
  simp [observation_objKeys, List.mem_append, mem_singleton_ite]

/-- C2: the serializers emit exactly the wire field names of the spec,
in declaration order: every Station serializes to an object with the
eight renamed keys in order, and every Observation serializes to an
object whose keys are the eleven wire names in declaration order,
restricted to the fields that are set. -/
theorem claim_C2_wire_names_and_order :
    (∀ s : Station, Except.map Json.objKeys (Station.serialize s) =
      .ok ["station", "visibility", "name", "latitude", "longitude",
        "elevation", "tempheight", "windheight"]) ∧
    (∀ o : Observation, Except.map Json.objKeys (Observation.serialize o) =
      .ok ((if o.station_id.isSome then ["station"] else []) ++
        (if o.time.isSome then ["time"] else []) ++
        (if o.temperature.isSome then ["temp"] else []) ++
        (if o.wind_speed.isSome then ["wind"] else []) ++
        (if o.wind_direction.isSome then ["winddir"] else []) ++
        (if o.wind_gust.isSome then ["gust"] else []) ++
        (if o.relative_humidity.isSome then ["rh"] else []) ++
        (if o.dew_point.isSome then ["dewpoint"] else []) ++
        (if o.pressure.isSome then ["pressure"] else []) ++
        (if o.precipitation.isSome then ["precip"] else []) ++
        (if o.uv_index.isSome then ["uv"] else []))) := by
  constructor
  · intro s
    rw [station_serialize_eq_toJson s]
    rfl
  · intro o
    rw [observation_serialize_eq_toJson o]
    simp only [Except.map, observation_objKeys]

/-- C3: the visibility variants serialize to exactly the tokens Open,
Only Windy (with the embedded space) and Private, and deserializing the
serialized token of any variant yields the same variant back. -/
theorem claim_C3_visibility_tokens_roundtrip :
    StationVisibility.serialize .OnlyWindy = .ok (.str "Only Windy") ∧
    StationVisibility.serialize .Open = .ok (.str "Open") ∧
    StationVisibility.serialize .Private = .ok (.str "Private") ∧
    ∀ v : StationVisibility,
      (StationVisibility.serialize v).bind StationVisibility.deserialize = .ok v := by
  refine ⟨rfl, rfl, rfl, ?_⟩
  intro v
  cases v <;> rfl

theorem default_base_append (k : String) :
    "https://stations.windy.com/pws/update" ++ "/" ++ k =
      "https://stations.windy.com/pws/update/" ++ k := by
  have h : ("https://stations.windy.com/pws/update" ++ "/" : String) =
      "https://stations.windy.com/pws/update/" := rfl
  rw [h]

/-- C4: for the one-element station list of the test fixture,
register_stations produces a request whose JSON body is the expected
stations document (numbers read as the f32 values their decimal tokens
denote) and whose target is the update path extended with the api key. -/
theorem claim_C4_register_fixture (api_key : String) :
    ((WindyStation.new api_key).registerRequest [testStation]).url =
      "https://stations.windy.com/pws/update/" ++ api_key ∧
    (RegisterStationsRequest.mk [testStation]).serialize =
      .ok (.obj [("stations", .arr [.obj [
        ("station", .num 0),
        ("visibility", .str "Open"),
        ("name", .str "test-station"),
        ("latitude", (f32round (49.28273 : Rat)).toJson),
        ("longitude", (f32round (-(123.120735 : Rat))).toJson),
        ("elevation", .num 62),
        ("tempheight", .num 1),
        ("windheight", .num 2)]])]) := by
  constructor
  · exact default_base_append api_key
  · rw [registerPayload_eq]
    have hlat : (49.282730 : Rat) = (49.28273 : Rat) := by norm_num
    simp [testStation, Station.toJson, hlat]

/-- C5 counterexample: the claim says success exactly on a 2xx status,
but on a received 300 status the call succeeds although 300 is not in
the 2xx range (reqwest error_for_status only rejects 4xx and 5xx). -/
theorem claim_C5_counterexample :
    (WindyStation.new "test-api-key").registerStations []
      (fun _ => .response 300) = .ok () ∧ 299 < 300 := by
  exact ⟨rfl, by decide⟩

/-- C5 amended: for both operations, the call succeeds exactly when a
response was received whose status is not a 4xx or 5xx error status;
any 4xx or 5xx status, or a transport failure, yields an error.  In
particular every 2xx status is a success. -/
theorem claim_C5_amended (w : WindyStation) (stations : List Station)
    (observations : List Observation) (http : Request → HttpOutcome) :
    callSucceeded (w.registerStations stations http) =
      outcomeAccepted (http (w.registerRequest stations)) ∧
    callSucceeded (w.recordObservations observations http) =
      outcomeAccepted (http (w.recordRequest observations)) ∧
    (∀ s : Nat, 200 ≤ s → s ≤ 299 → outcomeAccepted (.response s) = true) := by
  refine ⟨?_, ?_, ?_⟩
  · rw [registerStations_run, callSucceeded_completeSend]
  · rw [recordObservations_run, callSucceeded_completeSend]
  · intro s h1 h2
    simp only [outcomeAccepted, errorForStatus, isClientError, isServerError]
    have h4 : ¬(400 ≤ s) := by omega
    have h5 : ¬(500 ≤ s) := by omega
    simp [h4, h5]

/-- Witness for the amended C5 statement at the 204 status. -/
theorem claim_C5_amended_witness : outcomeAccepted (.response 204) = true := by
  exact (claim_C5_amended (WindyStation.new "test-api-key") [] []
    (fun _ => .response 204)).2.2 204 (by decide) (by decide)

/-- C6: both operations derive their target identically as base url,
one slash, api key, with no transformation of the key, and with the
default base the target is the update endpoint extended with the key. -/
theorem claim_C6_target_url (api_key base_url : String) (client : HttpClient)
    (stations : List Station) (observations : List Observation)
    (http : Request → HttpOutcome) :
    (WindyStation.mk api_key client base_url).postUrl = base_url ++ "/" ++ api_key ∧
    ((WindyStation.mk api_key client base_url).registerRequest stations).url =
      (WindyStation.mk api_key client base_url).postUrl ∧
    ((WindyStation.mk api_key client base_url).recordRequest observations).url =
      (WindyStation.mk api_key client base_url).postUrl ∧
    (WindyStation.mk api_key client base_url).registerStations stations http =
      completeSend (http ((WindyStation.mk api_key client base_url).registerRequest stations)) ∧
    (WindyStation.mk api_key client base_url).recordObservations observations http =
      completeSend (http ((WindyStation.mk api_key client base_url).recordRequest observations)) ∧
    (WindyStation.new api_key).postUrl =
      "https://stations.windy.com/pws/update/" ++ api_key := by
  exact ⟨rfl, rfl, rfl, registerStations_run _ _ _, recordObservations_run _ _ _,
    default_base_append api_key⟩

/-- C7: an empty input sequence is not rejected locally: the call sends
a request whose body holds an empty array under the one top-level key,
the result is exactly the mapped network outcome, and a 200 response
makes the call succeed. -/
theorem claim_C7_empty_sequences (w : WindyStation) (http : Request → HttpOutcome) :
    w.registerStations [] http =
      completeSend (http (Request.mk "POST" w.postUrl
        (.obj [("stations", .arr [])]))) ∧
    w.recordObservations [] http =
      completeSend (http (Request.mk "POST" w.postUrl
        (.obj [("observations", .arr [])]))) ∧
    w.registerStations [] (fun _ => .response 200) = .ok () ∧
    w.recordObservations [] (fun _ => .response 200) = .ok () := by
  exact ⟨rfl, rfl, rfl, rfl⟩

/-- C8: the base url is a plain configuration field, not hard-coded in
the request logic: overriding the field redirects both operations to the
overridden base, and the constructors merely fill the field with the
default value. -/
theorem claim_C8_base_url_override (w : WindyStation) (override_url : String)
    (stations : List Station) (observations : List Observation) :
    (({ w with base_url := override_url } : WindyStation).registerRequest stations).url =
      override_url ++ "/" ++ w.api_key ∧
    (({ w with base_url := override_url } : WindyStation).recordRequest observations).url =
      override_url ++ "/" ++ w.api_key ∧
    (WindyStation.with_client w.api_key w.client).base_url =
      "https://stations.windy.com/pws/update" := by
  exact ⟨rfl, rfl, rfl⟩

/-- C9: serializing the request bodies never fails: for every station
list and every observation list the serde pipeline returns Ok with the
serialized document, with no failing branch. -/
theorem claim_C9_serialization_total (stations : List Station)
    (observations : List Observation) :
    (RegisterStationsRequest.mk stations).serialize =
      .ok (.obj [("stations", .arr (stations.map Station.toJson))]) ∧
    (RecordObservationsRequest.mk observations).serialize =
      .ok (.obj [("observations", .arr (observations.map Observation.toJson))]) := by
  exact ⟨registerPayload_eq stations, recordPayload_eq observations⟩

/-- C10: an all-unset observation still serializes as the empty object,
and the serialized observations array keeps one element per input
observation, so its length always equals the input length. -/
theorem claim_C10_empty_observation_kept (observations : List Observation) :
    Observation.serialize Observation.defaultValue = .ok (.obj []) ∧
    (RecordObservationsRequest.mk observations).serialize =
      .ok (.obj [("observations", .arr (observations.map Observation.toJson))]) ∧
    (observations.map Observation.toJson).length = observations.length := by
  exact ⟨rfl, recordPayload_eq observations, List.length_map _ _⟩

end WindyStationLib
